import Mathlib

/-!
Verification development for the browser front end of the face
recognition service: the overlay renderer, the recognition polling loop
and the registration form handler, embedded as pure Lean functions and an
explicit event step transition system.  JavaScript numbers are modelled
as exact rationals, the unsigned 32-bit wraparound as explicit reduction
modulo 2 ^ 32, and the single threaded callback scheduling as atomic run
to completion events on an explicit application state.
-/

namespace FrSpec

/-- One detection result as delivered by the recognition endpoint.
Absent JSON fields are modelled as none; a bbox field that is not an
array is also modelled as none. -/
structure DetResult where
  name : String
  personnel_id : Option String
  recognized : Bool
  score : Option ℚ
  bbox : Option (List ℚ)
  face_image_url : Option String
  recognized_at : Option String
  deriving DecidableEq

/-- JavaScript truthiness of an optional string: absent and empty are
falsy, every other string is truthy. -/
def truthy : Option String → Bool
  | none => false
  | some s => s != ""

/-- Display name as built by the draw loop and the panel update: the
name, suffixed with the personnel identifier in brackets exactly when
that identifier is present and truthy. -/
def displayName (r : DetResult) : String :=
  match r.personnel_id with
  | some p => if p = "" then r.name else r.name ++ " [" ++ p ++ "]"
  | none => r.name

/-- Rolling hash of colorForId: hash = (hash * 31 + charCode) >>> 0 per
character, the unsigned shift modelled as reduction modulo 2 ^ 32. -/
def hash31 (key : String) : ℕ :=
  key.data.foldl (fun h c => (h * 31 + c.toNat) % 4294967296) 0

/-- Hue derived from the identity key: hash modulo 360. -/
def hueFor (key : String) : ℕ := hash31 key % 360

/-- Deterministic HSL color from an identity key (colorForId in the
source), at fixed saturation 80 and lightness 55. -/
def colorForId (key : String) : String :=
  "hsl(" ++ toString (hueFor key) ++ ", 80%, 55%)"

/-- Fixed neutral gray used for results not flagged recognized. -/
def grayStroke : String := "hsl(0, 0%, 75%)"

/-- Stroke color selection of the draw loop. -/
def strokeFor (flag : Bool) (key : String) : String :=
  if flag then colorForId key else grayStroke

/-- Identity key of a result: the name, a bar separator, and the
personnel id with empty fallback. -/
def identityKey (r : DetResult) : String :=
  r.name ++ "|" ++ r.personnel_id.getD ""

/-- Coordinate mapping of the draw loop:
Math.max(0, Math.floor(c * scale)). -/
def mapCoord (scale c : ℚ) : ℤ := max 0 ⌊c * scale⌋

/-- A mapped box as passed to strokeRect: top left corner plus width and
height. -/
structure MappedBox where
  x1 : ℤ
  y1 : ℤ
  w : ℤ
  h : ℤ
  deriving DecidableEq

/-- Box mapping of the draw loop: the four corners are mapped and
clamped individually and the drawn width and height are the clamped
nonnegative differences of the mapped corners. -/
def mapBox (scaleX scaleY b1 b2 b3 b4 : ℚ) : MappedBox :=
  let x1 := mapCoord scaleX b1
  let y1 := mapCoord scaleY b2
  let x2 := mapCoord scaleX b3
  let y2 := mapCoord scaleY b4
  ⟨x1, y1, max 0 (x2 - x1), max 0 (y2 - y1)⟩

/-- Geometry of the label background rectangle. -/
structure LabelGeom where
  tx : ℚ
  ty : ℚ
  textW : ℚ
  textH : ℚ
  deriving DecidableEq

/-- Label background geometry of the draw loop.  measuredW is the width
reported by the canvas text metrics for the label, an external quantity.
textW = metrics.width + 10, textH = max(18, fontPx + 6), the label is
put textH + 4 above the box top, moved to lineWidth below the box top
when that is negative, and the left edge is clamped between 0 and
surfaceW - textW - 2. -/
def labelGeom (surfaceW : ℚ) (lw x1 y1 fontPx : ℤ) (measuredW : ℚ) : LabelGeom :=
  let textW : ℚ := measuredW + 10
  let textH : ℚ := max 18 ((fontPx : ℚ) + 6)
  let ty0 : ℚ := (y1 : ℚ) - textH - 4
  let ty : ℚ := if ty0 < 0 then (y1 : ℚ) + (lw : ℚ) else ty0
  let tx : ℚ := max 0 (min (surfaceW - textW - 2) (x1 : ℚ))
  ⟨tx, ty, textW, textH⟩

/-- The four bbox coordinates when the bbox is an array of exactly four
numbers, none otherwise. -/
def bboxFields : Option (List ℚ) → Option (ℚ × ℚ × ℚ × ℚ)
  | some [a, b, c, d] => some (a, b, c, d)
  | _ => none

/-- The guard of the forEach body: Array.isArray(bbox) and length 4. -/
def bboxValid (b : Option (List ℚ)) : Bool := (bboxFields b).isSome

/-- One canvas drawing command issued by the draw loop. -/
inductive DrawOp where
  | strokeRect (x y w h : ℚ) (lineWidth : ℤ) (color : String)
  | fillRect (x y w h : ℚ) (color : String)
  | fillText (s : String) (x y : ℚ) (color : String)
  deriving DecidableEq

/-- Stroke line width:
Math.max(2, Math.round(Math.min(drawW, drawH) / 300)). -/
def lineWidthFor (dW dH : ℤ) : ℤ :=
  max 2 (round ((min (dW : ℚ) (dH : ℚ)) / 300))

/-- Font size in pixels: Math.max(14, Math.round(h * 0.08)). -/
def fontPxFor (h : ℤ) : ℤ := max 14 (round ((h : ℚ) * (8 / 100)))

/-- Drawing commands for one result inside data.results.forEach: a
result without a four element bbox array is skipped entirely, otherwise
the box is stroked and the label background and text are filled. -/
def opsFor (measure : String → ℚ) (dW : ℤ) (scaleX scaleY : ℚ) (lw : ℤ)
    (r : DetResult) : List DrawOp :=
  match bboxFields r.bbox with
  | none => []
  | some (b1, b2, b3, b4) =>
    let mb := mapBox scaleX scaleY b1 b2 b3 b4
    let stroke := strokeFor r.recognized (identityKey r)
    let label := displayName r
    let g := labelGeom (dW : ℚ) lw mb.x1 mb.y1 (fontPxFor mb.h) (measure label)
    [DrawOp.strokeRect (mb.x1 : ℚ) (mb.y1 : ℚ) (mb.w : ℚ) (mb.h : ℚ) lw stroke,
     DrawOp.fillRect g.tx g.ty g.textW g.textH "rgba(0,0,0,0.65)",
     DrawOp.fillText label (g.tx + 5) (g.ty + 3) "#e2e8f0"]

/-- Full repaint for a result list: per axis scale factors drawW / srcW
and drawH / srcH and one shared line width for all boxes. -/
def renderResults (measure : String → ℚ) (dW dH : ℤ) (srcW srcH : ℚ)
    (results : List DetResult) : List DrawOp :=
  let scaleX := (dW : ℚ) / srcW
  let scaleY := (dH : ℚ) / srcH
  let lw := lineWidthFor dW dH
  (results.map (opsFor measure dW scaleX scaleY lw)).flatten

/-- Side panel display state: current match name and score text, the
thumbnail visibility and source, and the last seen time text. -/
structure SidePanel where
  currentName : String
  currentScore : String
  thumbHidden : Bool
  lastFaceSrc : Option String
  lastFaceTime : String
  deriving DecidableEq

/-- Panel contents after the empty results branch: placeholder dash,
empty score, hidden thumbnail with its src attribute removed and empty
time text. -/
def clearedPanel : SidePanel := ⟨"-", "", true, none, ""⟩

/-- Score text shown next to the name: empty when the score is absent.
The source renders score.toFixed(3); the decimal formatting is
abstracted to toString, only presence versus emptiness is observed. -/
def scoreText : Option ℚ → String
  | none => ""
  | some q => "(score: " ++ toString q ++ ")"

/-- Panel after a successful cycle with a nonempty result list, built
from the chosen first result.  The thumbnail fields change only when the
chosen result carries a truthy face_image_url; the cache busting query
suffix and the locale time formatting are abstracted away. -/
def panelFor (prev : SidePanel) (first : DetResult) : SidePanel :=
  { currentName := displayName first
    currentScore := scoreText first.score
    thumbHidden := if truthy first.face_image_url then false else prev.thumbHidden
    lastFaceSrc := if truthy first.face_image_url then first.face_image_url else prev.lastFaceSrc
    lastFaceTime :=
      if truthy first.face_image_url && truthy first.recognized_at then
        "at " ++ first.recognized_at.getD ""
      else prev.lastFaceTime }

/-- Outcome of one recognition request as seen by the loop body: a
parsed JSON response with an optional results array and an optional two
element image_size (none also covers a wrong length array), or a network
or parse failure. -/
inductive Response where
  | ok (results : Option (List DetResult)) (imageSize : Option (ℚ × ℚ))
  | error
  deriving DecidableEq

/-- The global mutable state of the page plus the relevant browser
runtime state: the queue of pending timeouts (timer id and delay in
milliseconds) and the count of cycles suspended at their network round
trip.  Timer ids start at 1 because browser timeout handles are
positive; a handle of 0 would read as falsy in the toggle handler. -/
structure AppState where
  recognizing : Bool
  recogTimer : Option ℕ
  pendingTimers : List (ℕ × ℕ)
  inFlight : ℕ
  videoW : ℤ
  videoH : ℤ
  drawW : ℤ
  drawH : ℤ
  surface : List DrawOp
  panel : SidePanel
  message : String
  nextTimerId : ℕ
  deriving DecidableEq

/-- Atomic run to completion events of the single threaded page: the
toggle click, the completion of one suspended cycle, and the firing of a
pending timeout. -/
inductive Event where
  | toggle
  | resolve (resp : Response)
  | fire (t : ℕ)
  deriving DecidableEq

/-- Effect of the loop body on draw dimensions, panel and surface once
the response is in.  On failure nothing here runs, because the catch
block of the loop is empty.  On success the surface is cleared, and a
nonempty results array triggers the canvas resize check, the panel
update from the first recognized result with first listed fallback, and
a full repaint; any other results value resets the panel and leaves the
surface cleared. -/
def cycleView (measure : String → ℚ) (vW vH dW dH : ℤ) (panel : SidePanel)
    (surface : List DrawOp) : Response → ℤ × ℤ × SidePanel × List DrawOp
  | Response.error => (dW, dH, panel, surface)
  | Response.ok results? imageSize? =>
    match results? with
    | some (r0 :: rest) =>
      let dW' := if (dW != vW) || (dH != vH) then vW else dW
      let dH' := if (dW != vW) || (dH != vH) then vH else dH
      let src : ℚ × ℚ :=
        match imageSize? with
        | some p => p
        | none => ((vW : ℚ), (vH : ℚ))
      let first := ((r0 :: rest).find? (fun r => r.recognized)).getD r0
      (dW', dH', panelFor panel first,
        renderResults measure dW' dH' src.1 src.2 (r0 :: rest))
    | _ => (dW, dH, clearedPanel, [])

/-- State after the try block of the loop body; the finally clause is
applied separately by scheduleNext. -/
def applyResponse (measure : String → ℚ) (s : AppState) (resp : Response) : AppState :=
  let v := cycleView measure s.videoW s.videoH s.drawW s.drawH s.panel s.surface resp
  { s with drawW := v.1, drawH := v.2.1, panel := v.2.2.1, surface := v.2.2.2 }

/-- The finally clause: recogTimer = setTimeout(loopRecognize, 1000),
executed unconditionally at the end of every cycle. -/
def scheduleNext (s : AppState) : AppState :=
  { s with pendingTimers := s.pendingTimers ++ [(s.nextTimerId, 1000)],
           recogTimer := some s.nextTimerId,
           nextTimerId := s.nextTimerId + 1 }

/-- One atomic event.  toggle: flip the flag; turning on starts a cycle
at once; turning off runs clearTimeout and clears the surface only when
the recogTimer variable is truthy.  resolve: one suspended cycle
finishes its round trip, runs the rest of the loop body and then the
finally clause.  fire: a pending timeout fires; the invoked loop
function returns immediately when the flag is off and otherwise starts a
cycle; the recogTimer variable is not reset by firing, so it may keep a
stale handle. -/
def step (measure : String → ℚ) (s : AppState) : Event → AppState
  | Event.toggle =>
    if s.recognizing then
      match s.recogTimer with
      | some t =>
        { s with recognizing := false, recogTimer := none,
                 pendingTimers := s.pendingTimers.filter (fun p => p.1 != t),
                 surface := [] }
      | none => { s with recognizing := false }
    else
      { s with recognizing := true, inFlight := s.inFlight + 1 }
  | Event.resolve resp =>
    if s.inFlight = 0 then s
    else scheduleNext (applyResponse measure { s with inFlight := s.inFlight - 1 } resp)
  | Event.fire t =>
    if (s.pendingTimers.filter (fun p => p.1 == t)).isEmpty then s
    else
      let s1 := { s with pendingTimers := s.pendingTimers.filter (fun p => p.1 != t) }
      if s1.recognizing then { s1 with inFlight := s1.inFlight + 1 } else s1

/-- Initial page state: flag off, no timer, fresh empty canvas matching
the video, initial panel text from the markup, first timer id 1. -/
def init (vW vH : ℤ) (p0 : SidePanel) : AppState :=
  ⟨false, none, [], 0, vW, vH, vW, vH, [], p0, "", 1⟩

/-- Run a sequence of events from a state. -/
def run (measure : String → ℚ) (s : AppState) (evs : List Event) : AppState :=
  evs.foldl (step measure) s

/-- Invariant tying the recogTimer variable to the surface: whenever the
variable is empty the surface is empty.  It justifies that toggling off
leaves an empty surface also when no timer was tracked. -/
def TimerInv (s : AppState) : Prop :=
  s.recogTimer = none → s.surface = []

/-- Whitespace as removed by the trim calls of the register handler. -/
def isJsSpace (c : Char) : Bool :=
  (c == ' ') || (c == '\t') || (c == '\n') || (c == '\r') ||
    (c == '\x0b') || (c == '\x0c')

/-- Model of the JavaScript string trim: drop whitespace from both
ends. -/
def jsTrim (s : String) : String :=
  ⟨((s.data.dropWhile isJsSpace).reverse.dropWhile isJsSpace).reverse⟩

/-- HTTP response to the register POST as seen by the handler: the
status flag and, when the body parses as JSON, the optional detail
field.  The catch fallback to an empty object makes an unparseable body
behave exactly like an absent detail. -/
structure RegisterResponse where
  ok : Bool
  body : Option (Option String)
  deriving DecidableEq

/-- One multipart submission to the register endpoint: the trimmed name
and, when truthy, the trimmed personnel id. -/
structure SentRequest where
  name : String
  personnel_id : Option String
  deriving DecidableEq

/-- Observable outcome of one register click: the requests sent, the
shown message with its error flag, and the input field values after the
handler returns. -/
structure RegOutcome where
  requests : List SentRequest
  messageText : String
  messageIsError : Bool
  nameAfter : String
  pidAfter : String
  deriving DecidableEq

/-- The register button click handler: an empty trimmed name short
circuits before any request is sent; otherwise exactly one request goes
out and the response drives the message, with err.detail falling back to
the fixed text when the detail is absent, unparseable or empty, and the
inputs are cleared only on success. -/
def registerClick (nameVal pidVal : String) (resp : RegisterResponse) : RegOutcome :=
  let name := jsTrim nameVal
  let personnelId := jsTrim pidVal
  if name = "" then
    ⟨[], "Please enter full name", true, nameVal, pidVal⟩
  else
    let req : SentRequest := ⟨name, if personnelId = "" then none else some personnelId⟩
    if resp.ok then
      ⟨[req], "Registered successfully", false, "", ""⟩
    else
      let detail : Option String := resp.body.getD none
      let msg :=
        match detail with
        | some d => if d = "" then "Registration failed" else d
        | none => "Registration failed"
      ⟨[req], msg, true, nameVal, pidVal⟩

/-- Text metrics stub used in concrete runs: a fixed measured width. -/
def measure0 : String → ℚ := fun _ => 40

/-- Initial panel text from the markup. -/
def panel0 : SidePanel := ⟨"-", "", true, none, ""⟩

/-- A recognized result with a valid box. -/
def alice : DetResult :=
  ⟨"Alice", none, true, none, some [10, 10, 50, 50], none, none⟩

/-- An unrecognized result with a malformed three element box. -/
def bob : DetResult :=
  ⟨"Bob", some "E1", false, none, some [1, 2, 3], none, none⟩

/-- Initial state with a 640 x 480 video. -/
def state0 : AppState := init 640 480 panel0

/-- State after one toggle: recognizing with one cycle in flight. -/
def state1 : AppState := step measure0 state0 Event.toggle

/-- Trace for the pending timer count: toggle on, toggle off while the
first cycle is in flight (nothing to cancel, no timer tracked yet),
toggle on again, then both in flight cycles resolve and each schedules
its own timeout. -/
def doubleTimerTrace : List Event :=
  [Event.toggle, Event.toggle, Event.toggle,
   Event.resolve Response.error, Event.resolve Response.error]

/-- Trace leaving a painted surface and a filled panel with a fresh
cycle in flight: toggle on, the cycle resolves with one recognized
result, the scheduled timeout fires and starts the next cycle. -/
def paintedTrace : List Event :=
  [Event.toggle, Event.resolve (Response.ok (some [alice]) none), Event.fire 1]

/-- C1: in the draw loop each bbox coordinate is mapped to the floor of
the coordinate times surface over source dimension, clamped to be
nonnegative; width and height are the clamped nonnegative differences of
the mapped corners and hence never negative even when the corners
invert; and the worked example bbox = [100, 50, 300, 250] with source
size 640 x 480 on a 1280 x 960 surface yields the rectangle at
(200, 100) with width and height 400, that is, corners (200, 100) and
(600, 500). -/
theorem c1_box_mapping (sW sH oW oH b1 b2 b3 b4 : ℚ) :
    (mapBox (sW / oW) (sH / oH) b1 b2 b3 b4).x1 = max 0 ⌊b1 * sW / oW⌋ ∧
    (mapBox (sW / oW) (sH / oH) b1 b2 b3 b4).y1 = max 0 ⌊b2 * sH / oH⌋ ∧
    (mapBox (sW / oW) (sH / oH) b1 b2 b3 b4).w =
      max 0 (max 0 ⌊b3 * sW / oW⌋ - max 0 ⌊b1 * sW / oW⌋) ∧
    (mapBox (sW / oW) (sH / oH) b1 b2 b3 b4).h =
      max 0 (max 0 ⌊b4 * sH / oH⌋ - max 0 ⌊b2 * sH / oH⌋) ∧
    0 ≤ (mapBox (sW / oW) (sH / oH) b1 b2 b3 b4).w ∧
    0 ≤ (mapBox (sW / oW) (sH / oH) b1 b2 b3 b4).h ∧
    mapBox ((1280 : ℚ) / 640) ((960 : ℚ) / 480) 100 50 300 250 = ⟨200, 100, 400, 400⟩ := by
  refine ⟨?_, ?_, ?_, ?_, le_max_left 0 _, le_max_left 0 _, ?_⟩
  · simp [mapBox, mapCoord, mul_div_assoc]
  · simp [mapBox, mapCoord, mul_div_assoc]
  · simp [mapBox, mapCoord, mul_div_assoc]
  · simp [mapBox, mapCoord, mul_div_assoc]
  · norm_num [mapBox, mapCoord]

/-- C2: the stroke color of a recognized result is the deterministic HSL
color whose hue is the polynomial rolling hash of the identity key,
accumulator times 31 plus character code with unsigned 32-bit
wraparound, reduced modulo 360 at fixed saturation 80 and lightness 55;
the hue is a pure function of the key and lies below 360, so the same
key always yields the same hue; results not flagged recognized get the
fixed neutral gray. -/
theorem c2_stroke_color (key : String) :
    strokeFor true key =
      "hsl(" ++
        toString (key.data.foldl (fun h c => (h * 31 + c.toNat) % 2 ^ 32) 0 % 360) ++
        ", 80%, 55%)" ∧
    hueFor key < 360 ∧
    strokeFor false key = "hsl(0, 0%, 75%)" := by
  have h32 : (fun (h : ℕ) (c : Char) => (h * 31 + c.toNat) % 4294967296) =
      (fun (h : ℕ) (c : Char) => (h * 31 + c.toNat) % 2 ^ 32) := by
    funext h c
    norm_num
  refine ⟨?_, Nat.mod_lt _ (by norm_num), rfl⟩
  simp [strokeFor, colorForId, hueFor, hash31, h32, grayStroke]

/-- Helper: a result failing the bbox guard produces no drawing command. -/
theorem opsFor_invalid (m : String → ℚ) (dW : ℤ) (sx sy : ℚ) (lw : ℤ)
    (r : DetResult) (h : bboxValid r.bbox = false) :
    opsFor m dW sx sy lw r = [] := by
  cases o : bboxFields r.bbox with
  | none => simp [opsFor, o]
  | some v => rw [bboxValid, o] at h; simp at h

/-- C6: a result whose bbox is absent, not an array, or not exactly four
numbers long contributes no drawing command at all, and the repaint of a
list containing such a result equals the repaint of the list without it,
so the other results are still drawn; no error is raised since the
embedding is total. -/
theorem c6_skip_malformed (m : String → ℚ) (dW dH : ℤ) (srcW srcH : ℚ)
    (xs ys : List DetResult) (r : DetResult) (h : bboxValid r.bbox = false) :
    renderResults m dW dH srcW srcH (xs ++ r :: ys) =
      renderResults m dW dH srcW srcH (xs ++ ys) ∧
    renderResults m dW dH srcW srcH [r] = [] := by
  have hz : ∀ sx sy lw, opsFor m dW sx sy lw r = [] :=
    fun sx sy lw => opsFor_invalid m dW sx sy lw r h
  constructor
  · simp [renderResults, hz]
  · simp [renderResults, hz]

/-- C6 witness: a three element bbox entry between valid entries is
skipped while the surrounding list renders as without it, at concrete
inputs. -/
theorem c6_skip_malformed_witness :
    renderResults measure0 640 480 640 480 ([alice] ++ bob :: []) =
      renderResults measure0 640 480 640 480 ([alice] ++ []) ∧
    renderResults measure0 640 480 640 480 [bob] = [] :=
  c6_skip_malformed measure0 640 480 640 480 [alice] [] bob (by decide)

/-- C7 counterexample: with a surface of width 100 and a measured label
width of 190 the label background is 200 wide, the clamp keeps its left
edge at 0, and its right edge at 200 overflows the surface right edge,
refuting the claim that the label never overflows the surface. -/
theorem c7_counterexample :
    (labelGeom 100 2 0 50 14 190).tx + (labelGeom 100 2 0 50 14 190).textW > 100 := by
  norm_num [labelGeom]

/-- C7 amended: the label background is anchored textH + 4 above the box
top left corner; when that would be off the top edge it is moved to
lineWidth below the box top, so its vertical position is never negative
for a nonnegative box top and line width; the left edge is clamped
between 0 and surfaceW - textW - 2, which keeps the label inside the
right edge whenever the padded label fits the surface; a label wider
than the surface still overflows, as the counterexample shows, so the
unconditional claim is weakened to the fitting case. -/
theorem c7_label_placement (surfaceW : ℚ) (lw x1 y1 fontPx : ℤ) (mW : ℚ) :
    (labelGeom surfaceW lw x1 y1 fontPx mW).textW = mW + 10 ∧
    ((y1 : ℚ) - (labelGeom surfaceW lw x1 y1 fontPx mW).textH - 4 < 0 →
      (labelGeom surfaceW lw x1 y1 fontPx mW).ty = (y1 : ℚ) + (lw : ℚ)) ∧
    (0 ≤ (y1 : ℚ) - (labelGeom surfaceW lw x1 y1 fontPx mW).textH - 4 →
      (labelGeom surfaceW lw x1 y1 fontPx mW).ty =
        (y1 : ℚ) - (labelGeom surfaceW lw x1 y1 fontPx mW).textH - 4) ∧
    (0 ≤ y1 → 0 ≤ lw → 0 ≤ (labelGeom surfaceW lw x1 y1 fontPx mW).ty) ∧
    (labelGeom surfaceW lw x1 y1 fontPx mW).tx =
      max 0 (min (surfaceW - (labelGeom surfaceW lw x1 y1 fontPx mW).textW - 2) (x1 : ℚ)) ∧
    ((labelGeom surfaceW lw x1 y1 fontPx mW).textW + 2 ≤ surfaceW →
      (labelGeom surfaceW lw x1 y1 fontPx mW).tx +
        (labelGeom surfaceW lw x1 y1 fontPx mW).textW ≤ surfaceW - 2) := by
  have htW : (labelGeom surfaceW lw x1 y1 fontPx mW).textW = mW + 10 := rfl
  have htH : (labelGeom surfaceW lw x1 y1 fontPx mW).textH = max 18 ((fontPx : ℚ) + 6) := rfl
  have hty : (labelGeom surfaceW lw x1 y1 fontPx mW).ty =
      if (y1 : ℚ) - max 18 ((fontPx : ℚ) + 6) - 4 < 0 then (y1 : ℚ) + (lw : ℚ)
      else (y1 : ℚ) - max 18 ((fontPx : ℚ) + 6) - 4 := rfl
  have htx : (labelGeom surfaceW lw x1 y1 fontPx mW).tx =
      max 0 (min (surfaceW - (mW + 10) - 2) (x1 : ℚ)) := rfl
  refine ⟨htW, ?_, ?_, ?_, ?_, ?_⟩
  · intro h
    rw [hty, if_pos (by rw [htH] at h; exact h)]
  · intro h
    rw [htH] at h
    rw [hty, if_neg (by linarith), htH]
  · intro hy hlw
    rw [hty]
    have hy' : (0 : ℚ) ≤ (y1 : ℚ) := by exact_mod_cast hy
    have hlw' : (0 : ℚ) ≤ (lw : ℚ) := by exact_mod_cast hlw
    split
    · linarith
    · linarith [not_lt.mp (by assumption)]
  · rw [htx, htW]
  · intro h
    rw [htW] at h
    rw [htx, htW]
    have h0 : (0 : ℚ) ≤ surfaceW - (mW + 10) - 2 := by linarith
    have h1 : min (surfaceW - (mW + 10) - 2) (x1 : ℚ) ≤ surfaceW - (mW + 10) - 2 :=
      min_le_left _ _
    have h2 : max 0 (min (surfaceW - (mW + 10) - 2) (x1 : ℚ)) ≤ surfaceW - (mW + 10) - 2 :=
      max_le h0 h1
    linarith

/-- C7 witness: at a surface of width 640 with measured label width 40,
box top left (10, 10), font 14 and line width 2 the anchored position
computes as stated and the label right edge stays inside the surface. -/
theorem c7_label_placement_witness :
    (labelGeom 640 2 10 10 14 40).ty = ((10 : ℤ) : ℚ) + ((2 : ℤ) : ℚ) ∧
    (0 : ℚ) ≤ (labelGeom 640 2 10 10 14 40).ty ∧
    (labelGeom 640 2 10 10 14 40).tx + (labelGeom 640 2 10 10 14 40).textW ≤ 640 - 2 := by
  refine ⟨?_, ?_, ?_⟩
  · exact (c7_label_placement 640 2 10 10 14 40).2.1 (by norm_num [labelGeom])
  · exact (c7_label_placement 640 2 10 10 14 40).2.2.2.1 (by norm_num) (by norm_num)
  · exact (c7_label_placement 640 2 10 10 14 40).2.2.2.2.2 (by norm_num [labelGeom])

/-- Helper: the invariant holds initially. -/
theorem timerInv_init (vW vH : ℤ) (p0 : SidePanel) : TimerInv (init vW vH p0) :=
  fun _ => rfl

/-- Helper: every event preserves the invariant. -/
theorem timerInv_step (m : String → ℚ) (s : AppState) (e : Event)
    (h : TimerInv s) : TimerInv (step m s e) := by
  cases e with
  | toggle =>
    simp only [step]
    by_cases hr : s.recognizing
    · simp only [hr, if_true]
      cases ht : s.recogTimer with
      | some t => intro _; rfl
      | none => intro _; exact h ht
    · simp only [hr, if_false]
      intro hn
      exact h hn
  | resolve resp =>
    simp only [step]
    by_cases hf : s.inFlight = 0
    · simp only [hf, if_true]
      exact h
    · simp only [hf, if_false]
      intro hc
      exact absurd hc (by simp [scheduleNext])
  | fire t =>
    simp only [step]
    by_cases he : (s.pendingTimers.filter (fun p => p.1 == t)).isEmpty
    · simp only [he, if_true]
      exact h
    · simp only [he, if_false]
      by_cases hr : s.recognizing
      · simp only [hr, if_true]
        intro hn
        exact h hn
      · simp only [hr, if_false]
        intro hn
        exact h hn

/-- Helper: the invariant holds on every reachable state. -/
theorem timerInv_run (m : String → ℚ) (s : AppState) (evs : List Event)
    (h : TimerInv s) : TimerInv (run m s evs) := by
  induction evs generalizing s with
  | nil => exact h
  | cons e evs ih => exact ih (step m s e) (timerInv_step m s e h)

/-- C3 counterexample: after toggling on, toggling off while the first
cycle is still in flight (nothing is cancelled or cleared because no
timer is tracked yet) and toggling on again, both in flight cycles
resolve and each schedules its own timeout, so two cycles are pending at
once; the next toggle off cancels only the tracked one and leaves one
pending schedule behind.  This refutes the claimed invariant that at
most one pending cycle is ever scheduled. -/
theorem c3_counterexample :
    (run measure0 state0 doubleTimerTrace).pendingTimers.length = 2 ∧
    (step measure0 (run measure0 state0 doubleTimerTrace) Event.toggle).pendingTimers.length = 1 := by
  constructor
  · simp [run, doubleTimerTrace, state0, init, panel0, step, scheduleNext,
      applyResponse, cycleView, List.foldl]
  · simp [run, doubleTimerTrace, state0, init, panel0, step, scheduleNext,
      applyResponse, cycleView, List.foldl, List.filter]

/-- C3 amended: on every reachable state, toggling from Active to Idle
synchronously leaves the flag off, the recogTimer variable empty and the
render surface empty: when a timer is tracked it is cancelled and the
surface cleared by the handler, and when none is tracked the surface was
already empty; moreover every timeout the recogTimer variable tracked is
gone from the pending queue.  The stronger original claim that at most
one cycle is ever pending is refuted by the counterexample: overlapping
in flight cycles produced by rapid toggling each schedule a timeout and
only the tracked one is cancelled. -/
theorem c3_toggle_off (m : String → ℚ) (vW vH : ℤ) (p0 : SidePanel)
    (evs : List Event)
    (hr : (run m (init vW vH p0) evs).recognizing = true) :
    (step m (run m (init vW vH p0) evs) Event.toggle).recognizing = false ∧
    (step m (run m (init vW vH p0) evs) Event.toggle).recogTimer = none ∧
    (step m (run m (init vW vH p0) evs) Event.toggle).surface = [] ∧
    (∀ t, (run m (init vW vH p0) evs).recogTimer = some t →
      ((step m (run m (init vW vH p0) evs) Event.toggle).pendingTimers.filter
        (fun p => p.1 == t)) = []) := by
  have hinv : TimerInv (run m (init vW vH p0) evs) :=
    timerInv_run m (init vW vH p0) evs (timerInv_init vW vH p0)
  cases ht : (run m (init vW vH p0) evs).recogTimer with
  | none =>
    refine ⟨?_, ?_, ?_, ?_⟩
    · simp [step, hr, ht]
    · simp [step, hr, ht]
    · simp only [step, hr, if_true, ht]
      exact hinv ht
    · intro t hsome
      exact absurd hsome (by simp)
  | some t0 =>
    refine ⟨?_, ?_, ?_, ?_⟩
    · simp [step, hr, ht]
    · simp [step, hr, ht]
    · simp [step, hr, ht]
    · intro t hsome
      cases hsome
      simp only [step, hr, if_true, ht]
      rw [List.filter_filter]
      apply List.filter_eq_nil_iff.mpr
      intro a _
      simp

/-- C3 witness: the amended toggle off behaviour at the concrete
reachable state with one tracked pending timeout. -/
theorem c3_toggle_off_witness :
    (step measure0 (run measure0 (init 640 480 panel0)
        [Event.toggle, Event.resolve Response.error]) Event.toggle).recognizing = false ∧
    (step measure0 (run measure0 (init 640 480 panel0)
        [Event.toggle, Event.resolve Response.error]) Event.toggle).recogTimer = none ∧
    (step measure0 (run measure0 (init 640 480 panel0)
        [Event.toggle, Event.resolve Response.error]) Event.toggle).surface = [] ∧
    (∀ t, (run measure0 (init 640 480 panel0)
        [Event.toggle, Event.resolve Response.error]).recogTimer = some t →
      ((step measure0 (run measure0 (init 640 480 panel0)
          [Event.toggle, Event.resolve Response.error]) Event.toggle).pendingTimers.filter
        (fun p => p.1 == t)) = []) :=
  c3_toggle_off measure0 640 480 panel0 [Event.toggle, Event.resolve Response.error]
    (by simp [run, List.foldl, step, init, scheduleNext, applyResponse, cycleView])

/-- C4: every cycle, whatever its outcome, unconditionally schedules the
next cycle with a fixed 1000 ms timeout in its finally clause and tracks
the new timeout in the recogTimer variable, so the loop never stops
because of a per cycle failure; and a failed cycle changes neither the
panel, nor the surface, nor the message text: the error is swallowed
with no user visible indication. -/
theorem c4_reschedule (m : String → ℚ) (s : AppState) (resp : Response)
    (h : 0 < s.inFlight) :
    (step m s (Event.resolve resp)).recogTimer = some s.nextTimerId ∧
    (s.nextTimerId, 1000) ∈ (step m s (Event.resolve resp)).pendingTimers ∧
    (resp = Response.error →
      (step m s (Event.resolve resp)).panel = s.panel ∧
      (step m s (Event.resolve resp)).surface = s.surface ∧
      (step m s (Event.resolve resp)).message = s.message) := by
  have hf : ¬ s.inFlight = 0 := by omega
  refine ⟨?_, ?_, ?_⟩
  · simp [step, hf, scheduleNext, applyResponse]
  · simp [step, hf, scheduleNext, applyResponse]
  · rintro rfl
    refine ⟨?_, ?_, ?_⟩ <;> simp [step, hf, scheduleNext, applyResponse, cycleView]

/-- C4 witness: the failed first cycle at the concrete in flight state
reschedules timer 1 at 1000 ms and leaves panel, surface and message
untouched. -/
theorem c4_reschedule_witness :
    (step measure0 state1 (Event.resolve Response.error)).recogTimer = some state1.nextTimerId ∧
    (state1.nextTimerId, 1000) ∈ (step measure0 state1 (Event.resolve Response.error)).pendingTimers ∧
    (Response.error = Response.error →
      (step measure0 state1 (Event.resolve Response.error)).panel = state1.panel ∧
      (step measure0 state1 (Event.resolve Response.error)).surface = state1.surface ∧
      (step measure0 state1 (Event.resolve Response.error)).message = state1.message) :=
  c4_reschedule measure0 state1 Response.error
    (by simp [state1, state0, step, init])

/-- C5 counterexample: with the panel showing Alice and the surface
painted by a successful cycle, a following cycle that fails leaves both
untouched, because the catch block of the loop is empty; this refutes
the part of the claim that a failing cycle clears the side panel and the
surface. -/
theorem c5_counterexample :
    (run measure0 state0 (paintedTrace ++ [Event.resolve Response.error])).panel.currentName = "Alice" ∧
    (run measure0 state0 (paintedTrace ++ [Event.resolve Response.error])).panel.currentName ≠ "-" ∧
    (run measure0 state0 (paintedTrace ++ [Event.resolve Response.error])).surface ≠ [] := by
  refine ⟨?_, ?_, ?_⟩ <;>
    simp [run, paintedTrace, state0, init, panel0, step, scheduleNext, applyResponse,
      cycleView, panelFor, displayName, alice, scoreText, truthy, renderResults,
      opsFor, bboxFields, List.foldl, List.filter]

/-- C5 amended: when a cycle resolves with an empty results array, or
with a results field that is not an array, the side panel resets to the
placeholder dash with empty score text and hidden thumbnail and the
render surface is cleared; when the cycle fails with an error, panel and
surface are left unchanged, because the catch block is empty, rather
than cleared as the original claim states. -/
theorem c5_empty_clears (m : String → ℚ) (s : AppState)
    (imageSize? : Option (ℚ × ℚ)) (h : 0 < s.inFlight) :
    (step m s (Event.resolve (Response.ok (some []) imageSize?))).panel = clearedPanel ∧
    (step m s (Event.resolve (Response.ok (some []) imageSize?))).surface = [] ∧
    (step m s (Event.resolve (Response.ok none imageSize?))).panel = clearedPanel ∧
    (step m s (Event.resolve (Response.ok none imageSize?))).surface = [] ∧
    (step m s (Event.resolve Response.error)).panel = s.panel ∧
    (step m s (Event.resolve Response.error)).surface = s.surface := by
  have hf : ¬ s.inFlight = 0 := by omega
  refine ⟨?_, ?_, ?_, ?_, ?_, ?_⟩ <;>
    simp [step, hf, scheduleNext, applyResponse, cycleView]

/-- C5 witness: the amended clearing behaviour at the concrete in flight
state. -/
theorem c5_empty_clears_witness :
    (step measure0 state1 (Event.resolve (Response.ok (some []) none))).panel = clearedPanel ∧
    (step measure0 state1 (Event.resolve (Response.ok (some []) none))).surface = [] ∧
    (step measure0 state1 (Event.resolve (Response.ok none none))).panel = clearedPanel ∧
    (step measure0 state1 (Event.resolve (Response.ok none none))).surface = [] ∧
    (step measure0 state1 (Event.resolve Response.error)).panel = state1.panel ∧
    (step measure0 state1 (Event.resolve Response.error)).surface = state1.surface :=
  c5_empty_clears measure0 state1 none (by simp [state1, state0, step, init])

/-- C9: after a cycle resolves with a nonempty results array the panel
current name shows the first result flagged recognized, falling back to
the first listed result exactly when none is recognized, and the shown
name is the raw name suffixed with the personnel identifier in brackets
exactly when that identifier is present and truthy. -/
theorem c9_first_match (m : String → ℚ) (s : AppState) (r0 : DetResult)
    (rest : List DetResult) (imageSize? : Option (ℚ × ℚ)) (r : DetResult)
    (h : 0 < s.inFlight) :
    (step m s (Event.resolve (Response.ok (some (r0 :: rest)) imageSize?))).panel.currentName =
      displayName (((r0 :: rest).find? (fun x => x.recognized)).getD r0) ∧
    (truthy r.personnel_id = true →
      displayName r = r.name ++ " [" ++ r.personnel_id.getD "" ++ "]") ∧
    (truthy r.personnel_id = false → displayName r = r.name) := by
  have hf : ¬ s.inFlight = 0 := by omega
  refine ⟨?_, ?_, ?_⟩
  · simp [step, hf, scheduleNext, applyResponse, cycleView, panelFor]
  · intro hp
    cases hid : r.personnel_id with
    | none => rw [hid] at hp; simp [truthy] at hp
    | some p =>
      rw [hid] at hp
      simp only [truthy, bne_iff_ne, ne_eq, decide_eq_true_eq] at hp
      simp [displayName, hid, hp]
  · intro hp
    cases hid : r.personnel_id with
    | none => simp [displayName, hid]
    | some p =>
      rw [hid] at hp
      have hp' : p = "" := by simpa [truthy] using hp
      simp [displayName, hid, hp']

/-- C9 witness: with an unrecognized first entry and a recognized second
entry the panel shows the recognized one, and a truthy personnel id is
rendered in brackets. -/
theorem c9_first_match_witness :
    (step measure0 state1 (Event.resolve (Response.ok (some [bob, alice]) none))).panel.currentName =
      displayName ((([bob, alice]).find? (fun x => x.recognized)).getD bob) ∧
    displayName bob = "Bob [E1]" := by
  constructor
  · exact (c9_first_match measure0 state1 bob [alice] none bob
      (by simp [state1, state0, step, init])).1
  · exact (c9_first_match measure0 state1 bob [alice] none bob
      (by simp [state1, state0, step, init])).2.1 (by decide)

/-- C8 counterexample: a failing response whose parsed body contains an
empty detail field is JavaScript falsy, so the handler shows the fixed
fallback text instead of the exact server provided detail text, refuting
the claim for that input. -/
theorem c8_counterexample :
    (registerClick "Bob" "" ⟨false, some (some "")⟩).messageText = "Registration failed" ∧
    (registerClick "Bob" "" ⟨false, some (some "")⟩).messageText ≠ "" := by
  constructor <;> decide

/-- C8 amended: for a register click with nonempty trimmed name answered
with a non 2xx status, exactly one request is sent and the operation is
not retried, the message is flagged as an error, a parsed nonempty
detail field is shown verbatim, and a missing body, a body without
detail, or an empty detail falls back to the fixed failure text; the
original claim is weakened only by moving the present but empty detail
into the fallback case. -/
theorem c8_error_detail (nameVal pidVal : String) (resp : RegisterResponse)
    (d : String) (hn : ¬ jsTrim nameVal = "") (hok : resp.ok = false) :
    (resp.body = some (some d) → ¬ d = "" →
      (registerClick nameVal pidVal resp).messageText = d) ∧
    ((resp.body = none ∨ resp.body = some none ∨ resp.body = some (some "")) →
      (registerClick nameVal pidVal resp).messageText = "Registration failed") ∧
    (registerClick nameVal pidVal resp).requests.length = 1 ∧
    (registerClick nameVal pidVal resp).messageIsError = true := by
  obtain ⟨ok, body⟩ := resp
  simp only at hok
  subst hok
  refine ⟨?_, ?_, ?_, ?_⟩
  · rintro rfl hd
    simp [registerClick, hn, hd]
  · rintro (rfl | rfl | rfl) <;> simp [registerClick, hn]
  · simp [registerClick, hn]
  · simp [registerClick, hn]

/-- C8 witness: the worked example, HTTP 400 with detail duplicate name,
shows exactly the server detail text and sends exactly one request. -/
theorem c8_error_detail_witness :
    (registerClick "Bob" "" ⟨false, some (some "duplicate name")⟩).messageText = "duplicate name" ∧
    (registerClick "Bob" "" ⟨false, some (some "duplicate name")⟩).requests.length = 1 := by
  constructor
  · exact (c8_error_detail "Bob" "" ⟨false, some (some "duplicate name")⟩
      "duplicate name" (by decide) rfl).1 rfl (by decide)
  · exact (c8_error_detail "Bob" "" ⟨false, some (some "duplicate name")⟩
      "duplicate name" (by decide) rfl).2.2.1

/-- C10: a register click whose name input trims to empty sends no
request at all, shows the fixed error message asking for a name, and
leaves both input fields unchanged, whatever the personnel id input and
whatever the server would have answered; a nonempty personnel identifier
alone does not satisfy the precondition since it is universally
quantified here. -/
theorem c10_empty_name (nameVal pidVal : String) (resp : RegisterResponse)
    (h : jsTrim nameVal = "") :
    (registerClick nameVal pidVal resp).requests = [] ∧
    (registerClick nameVal pidVal resp).messageText = "Please enter full name" ∧
    (registerClick nameVal pidVal resp).messageIsError = true ∧
    (registerClick nameVal pidVal resp).nameAfter = nameVal ∧
    (registerClick nameVal pidVal resp).pidAfter = pidVal := by
  refine ⟨?_, ?_, ?_, ?_, ?_⟩ <;> simp [registerClick, h]

/-- C10 witness: a whitespace only name with a nonempty personnel id
sends nothing, shows the error and keeps both inputs. -/
theorem c10_empty_name_witness :
    (registerClick "   " "E42" ⟨true, none⟩).requests = [] ∧
    (registerClick "   " "E42" ⟨true, none⟩).messageText = "Please enter full name" ∧
    (registerClick "   " "E42" ⟨true, none⟩).messageIsError = true ∧
    (registerClick "   " "E42" ⟨true, none⟩).nameAfter = "   " ∧
    (registerClick "   " "E42" ⟨true, none⟩).pidAfter = "E42" :=
  c10_empty_name "   " "E42" ⟨true, none⟩ (by decide)

end FrSpec
